import Mathlib

/-!
Verification of the request-rewriting and routing core of the
gemini-thought-signature-proxy (src/proxy.js), shallowly embedded in Lean.

JSON values carried by requests are modelled by the inductive `Json`;
JavaScript objects are association lists of string keys in insertion order
(matching JSON.parse / JSON.stringify, which preserve key order).  Numeric
literals are modelled as integers: the code never does arithmetic on body
values, only truthiness tests, for which integers suffice.

JavaScript semantics embedded here:
  * plain property access `x.k` throws a TypeError when `x` is null
    (modelled by `Except String`), yields `undefined` (`none`) on
    primitives and on objects lacking the key;
  * optional chaining `x?.k` never throws;
  * truthiness: `null`, `false`, `0`, `""` are falsy, everything else truthy;
  * object spread `{...x, k: v}` keeps the position of an existing key `k`
    and appends it otherwise (`jsSet`);
  * `Array.prototype.map` with a throwing callback propagates the first throw;
  * `JSON.stringify` omits object entries whose value is `undefined`
    (`optField`).
-/

inductive Json where
  | null : Json
  | bool (b : Bool) : Json
  | num (n : Int) : Json
  | str (s : String) : Json
  | arr (elems : List Json) : Json
  | obj (fields : List (String × Json)) : Json
mutual

/-- Structural equality of JSON values (field order significant, matching
byte-identical serialization). -/
def Json.beq : Json → Json → Bool
  | .null, .null => true
  | .bool a, .bool b => a == b
  | .num a, .num b => a == b
  | .str a, .str b => a == b
  | .arr xs, .arr ys => Json.beqList xs ys
  | .obj fs, .obj gs => Json.beqFields fs gs
  | _, _ => false

def Json.beqList : List Json → List Json → Bool
  | [], [] => true
  | x :: xs, y :: ys => Json.beq x y && Json.beqList xs ys
  | _, _ => false

def Json.beqFields : List (String × Json) → List (String × Json) → Bool
  | [], [] => true
  | (k, v) :: fs, (l, w) :: gs => k == l && Json.beq v w && Json.beqFields fs gs
  | _, _ => false

end

mutual

theorem Json.beq_iff : ∀ a b : Json, Json.beq a b = true ↔ a = b
  | .null, b => by cases b <;> simp [Json.beq]
  | .bool a, b => by cases b <;> simp [Json.beq]
  | .num a, b => by cases b <;> simp [Json.beq]
  | .str a, b => by cases b <;> simp [Json.beq]
  | .arr xs, b => by
      cases b <;> simp [Json.beq]
      exact Json.beqList_iff xs _
  | .obj fs, b => by
      cases b <;> simp [Json.beq]
      exact Json.beqFields_iff fs _

theorem Json.beqList_iff : ∀ xs ys : List Json, Json.beqList xs ys = true ↔ xs = ys
  | [], ys => by cases ys <;> simp [Json.beqList]
  | x :: xs, ys => by
      cases ys with
      | nil => simp [Json.beqList]
      | cons y ys =>
          simp only [Json.beqList, Bool.and_eq_true, List.cons.injEq]
          exact and_congr (Json.beq_iff x y) (Json.beqList_iff xs ys)

theorem Json.beqFields_iff :
    ∀ fs gs : List (String × Json), Json.beqFields fs gs = true ↔ fs = gs
  | [], gs => by cases gs <;> simp [Json.beqFields]
  | (k, v) :: fs, gs => by
      cases gs with
      | nil => simp [Json.beqFields]
      | cons g gs =>
          obtain ⟨l, w⟩ := g
          simp only [Json.beqFields, Bool.and_eq_true, List.cons.injEq,
            Prod.mk.injEq, beq_iff_eq]
          rw [Json.beq_iff v w, Json.beqFields_iff fs gs, and_assoc]

end

instance : DecidableEq Json := fun a b =>
  decidable_of_iff (Json.beq a b = true) (Json.beq_iff a b)

instance {ε α : Type} [DecidableEq ε] [DecidableEq α] : DecidableEq (Except ε α) :=
  fun a b =>
    match a, b with
    | .ok x, .ok y => decidable_of_iff (x = y) (by simp)
    | .error e, .error f => decidable_of_iff (e = f) (by simp)
    | .ok _, .error _ => isFalse (by simp)
    | .error _, .ok _ => isFalse (by simp)

/-- First-match lookup in a JavaScript object's field list (JS objects from
`JSON.parse` have unique keys, so first match is the match). -/
def jlookup : List (String × Json) → String → Option Json
  | [], _ => none
  | (k, v) :: rest, key => if k = key then some v else jlookup rest key

/-- Semantics of `{...fields, key: v}`: overwrite the first occurrence of
`key` in place, else append the new entry at the end. -/
def jsSet : List (String × Json) → String → Json → List (String × Json)
  | [], key, v => [(key, v)]
  | (k, w) :: rest, key, v =>
      if k = key then (k, v) :: rest else (k, w) :: jsSet rest key v

/-- Own enumerable string-keyed properties seen by object spread/rest:
an object's fields, an array's index-keyed elements, a string's
index-keyed characters, nothing for other primitives. -/
def spreadFields : Json → List (String × Json)
  | .obj fs => fs
  | .arr xs => xs.enum.map (fun p => (toString p.1, p.2))
  | .str s => s.data.enum.map (fun p => (toString p.1, Json.str (toString p.2)))
  | _ => []

/-- Plain property access `x.k`: throws a TypeError on `null`, is
`undefined` on primitives and arrays (for the non-index keys used by the
proxy), looks the key up on objects. -/
def getProp : Json → String → Except String (Option Json)
  | .null, k => .error ("Cannot read properties of null (reading " ++ k ++ ")")
  | .obj fs, k => .ok (jlookup fs k)
  | _, _ => .ok none

/-- Optional-chaining access `x?.k`: never throws; `undefined` unless `x`
is an object carrying the key. -/
def getPropOpt : Option Json → String → Option Json
  | some (.obj fs), k => jlookup fs k
  | _, _ => none

/-- JavaScript truthiness of a JSON value. -/
def jsTruthy : Json → Bool
  | .null => false
  | .bool b => b
  | .num n => n != 0
  | .str s => s != ""
  | .arr _ => true
  | .obj _ => true

/-- Truthiness of a possibly-`undefined` value. -/
def jsTruthyOpt : Option Json → Bool
  | none => false
  | some j => jsTruthy j

-- ---------------------------------------------------------------------------
-- Configuration constants (src/proxy.js lines 33-46)
-- ---------------------------------------------------------------------------

def GOOGLE_BASE_URL : String := "https://generativelanguage.googleapis.com"

def BYPASS_SIGNATURE : String := "skip_thought_signature_validator"

def PATCHED_MODEL_ID : String := "models/gemini-3.1-pro-preview-customtools"

-- ---------------------------------------------------------------------------
-- Core injection logic (src/proxy.js lines 68-97)
-- ---------------------------------------------------------------------------

/-- The access `toolCall?.extra_content?.google?.thought_signature` (line 81). -/
def thoughtSignatureOf (tc : Json) : Option Json :=
  getPropOpt (getPropOpt (getPropOpt (some tc) "extra_content") "google")
    "thought_signature"

/-- The literal object `{ google: { thought_signature: BYPASS_SIGNATURE } }`
installed by the injection (lines 87-91). -/
def bypassExtraContent : Json :=
  .obj [("google", .obj [("thought_signature", .str BYPASS_SIGNATURE)])]

/-- The per-tool-call callback of `message.tool_calls.map` (lines 78-93):
keep the tool call if its signature is truthy, otherwise rebuild it with
`{...toolCall, extra_content: bypassExtraContent}`. -/
def patchToolCall (tc : Json) : Json :=
  if jsTruthyOpt (thoughtSignatureOf tc) then tc
  else .obj (jsSet (spreadFields tc) "extra_content" bypassExtraContent)

/-- The test `message.role !== "assistant"` negated: true exactly on the string
`"assistant"` (strict equality). -/
def isAssistantRole : Option Json → Bool
  | some (.str s) => s == "assistant"
  | _ => false

/-- The per-message callback of `messages.map` (lines 72-96).  Accessing
`message.role` throws on a null element; a message is rebuilt only when its
role is `"assistant"` and its `tool_calls` is an array. -/
def processMessage (message : Json) : Except String Json :=
  match getProp message "role" with
  | .error e => .error e
  | .ok role =>
      if isAssistantRole role then
        match getProp message "tool_calls" with
        | .error e => .error e
        | .ok (some (.arr tcs)) =>
            .ok (.obj (jsSet (spreadFields message) "tool_calls"
                  (.arr (tcs.map patchToolCall))))
        | .ok _ => .ok message
      else .ok message

/-- Semantics of `Array.prototype.map` over a callback that can throw: elements are
processed left to right and the first throw aborts the whole map. -/
def mapExcept (f : Json → Except String Json) :
    List Json → Except String (List Json)
  | [] => .ok []
  | x :: xs =>
      match f x with
      | .error e => .error e
      | .ok y =>
          match mapExcept f xs with
          | .error e => .error e
          | .ok ys => .ok (y :: ys)

/-- The function `injectThoughtSignatures(messages)` (lines 68-97) on a defined value:
non-arrays are returned unchanged (line 70), arrays are mapped. -/
def injectThoughtSignatures (messages : Json) : Except String Json :=
  match messages with
  | .arr xs =>
      match mapExcept processMessage xs with
      | .error e => .error e
      | .ok ys => .ok (.arr ys)
  | j => .ok j

/-- The function `injectThoughtSignatures` as called with a possibly-`undefined`
argument (`messages` may be absent from the destructured body):
`Array.isArray(undefined)` is false, so `undefined` passes through. -/
def injectThoughtSignaturesOpt : Option Json → Except String (Option Json)
  | none => .ok none
  | some j =>
      match injectThoughtSignatures j with
      | .error e => .error e
      | .ok r => .ok (some r)

-- ---------------------------------------------------------------------------
-- Route A: POST /v1beta/openai/v1/chat/completions (src/proxy.js lines 117-168)
-- ---------------------------------------------------------------------------

/-- Property lookup used by the destructuring
`const { messages, model, ...rest } = body` for a named (non-index) key.
The parsed body is an object or an array (the JSON body parser runs in
strict mode, so primitive and null bodies never reach the handler); named
keys are `undefined` on arrays. -/
def destructGet (body : Json) (k : String) : Option Json :=
  match body with
  | .obj fs => jlookup fs k
  | _ => none

/-- The `...rest` element of the destructuring: every own enumerable
property except the two extracted keys, in order. -/
def restFields (body : Json) : List (String × Json) :=
  (spreadFields body).filter (fun kv => kv.1 != "messages" && kv.1 != "model")

/-- One entry of the re-serialized body object: `JSON.stringify` omits a
key whose value is `undefined`. -/
def optField (k : String) : Option Json → List (String × Json)
  | some v => [(k, v)]
  | none => []

/-- The test `model === PATCHED_MODEL_ID` (line 126): strict string equality. -/
def requiresPatch (model : Option Json) : Bool :=
  match model with
  | some (.str s) => s == PATCHED_MODEL_ID
  | _ => false

/-- The serialized outbound body of Route A (lines 122-152):
`JSON.stringify({ messages: patchedMessages, model, ...rest })`, where
`patchedMessages` is the transform output only for the designated model. -/
def routeAOutboundBody (body : Json) : Except String Json :=
  let messages := destructGet body "messages"
  let model := destructGet body "model"
  if requiresPatch model then
    match injectThoughtSignaturesOpt messages with
    | .error e => .error e
    | .ok pm => .ok (.obj (optField "messages" pm ++ optField "model" model
                            ++ restFields body))
  else
    .ok (.obj (optField "messages" messages ++ optField "model" model
                ++ restFields body))

/-- The fixed path VS Code constructs and the proxy intercepts (line 117). -/
def ROUTE_A_PATH : String := "/v1beta/openai/v1/chat/completions"

/-- The corrected upstream URL (line 133). -/
def routeAUpstreamUrl : String := GOOGLE_BASE_URL ++ "/v1beta/openai/chat/completions"

/-- First-match lookup among the inbound headers (Node lower-cases header
names and joins duplicates, so a single lookup is faithful). -/
def headerLookup : List (String × String) → String → Option String
  | [], _ => none
  | (k, v) :: rest, key => if k = key then some v else headerLookup rest key

/-- Route A outbound headers (lines 137-143): `content-type` defaulted via
`||` (so an empty inbound value also falls back to "application/json"),
`authorization` added only when truthy (present and non-empty). -/
def routeAForwardHeaders (hs : List (String × String)) : List (String × String) :=
  let ct := match headerLookup hs "content-type" with
            | some v => if v = "" then "application/json" else v
            | none => "application/json"
  let base := [("content-type", ct)]
  match headerLookup hs "authorization" with
  | some v => if v = "" then base else base ++ [("authorization", v)]
  | none => base

structure OutboundRequest where
  method : String
  url : String
  headers : List (String × String)
  body : Option Json
deriving DecidableEq

/-- The outbound call Route A issues when the handler body reaches `fetch`
(lines 149-153): POST to the corrected URL with allow-listed headers and
the re-serialized body.  An error is a thrown TypeError from the transform,
which prevents any outbound call. -/
def routeAOutbound (hs : List (String × String)) (body : Json) :
    Except String OutboundRequest :=
  match routeAOutboundBody body with
  | .error e => .error e
  | .ok ob => .ok { method := "POST", url := routeAUpstreamUrl,
                    headers := routeAForwardHeaders hs, body := some ob }

-- ---------------------------------------------------------------------------
-- Route B: catch-all passthrough (src/proxy.js lines 179-216)
-- ---------------------------------------------------------------------------

/-- Route B outbound headers (lines 186-191): allow-list iterated in the
source's order, each forwarded only when truthy. -/
def routeBForwardHeaders (hs : List (String × String)) : List (String × String) :=
  (["authorization", "content-type", "accept"]).filterMap fun k =>
    match headerLookup hs k with
    | some v => if v = "" then none else some (k, v)
    | none => none

/-- Truthiness of `req.body` (line 199): `undefined` is falsy, the empty
object `{}` left by the body parser is truthy. -/
def jsTruthyBody : Option Json → Bool
  | none => false
  | some j => jsTruthy j

/-- The outbound call of the catch-all route (lines 182-205): same method,
origin plus incoming path and query string, allow-listed headers, and the
re-serialized body for non-GET/HEAD methods with a truthy body. -/
def routeBOutbound (method path qs : String) (hs : List (String × String))
    (body : Option Json) : OutboundRequest :=
  { method := method
    url := GOOGLE_BASE_URL ++ path ++ qs
    headers := routeBForwardHeaders hs
    body := if method != "GET" && method != "HEAD" && jsTruthyBody body
            then body else none }

-- ---------------------------------------------------------------------------
-- Handler outcomes and error handling (lines 117-168, 179-216, and line 55)
-- ---------------------------------------------------------------------------

/-- What the caller observes: a piped upstream response (status and
forwarded content-type, body streamed verbatim), the handlers' structured
JSON error, or a response produced by the body-parsing middleware before
any route runs. -/
inductive ProxyResponse where
  | piped (status : Nat) (contentType : Option String)
  | errorJson (status : Nat) (body : Json)
  | middlewareError (status : Nat)
deriving DecidableEq

/-- The fixed-shape catch body
`{ error: "proxy_error", details: err.message }` (lines 166 and 214). -/
def proxyErrorBody (msg : String) : Json :=
  .obj [("error", .str "proxy_error"), ("details", .str msg)]

/-- The Route A handler around its try/catch (lines 117-168), parametrized
by the environment's `fetch` behavior: success pipes the upstream status
and content-type; any throw before or during `fetch` is caught and turned
into a 502 with the fixed-shape body. -/
def routeAHandle (hs : List (String × String)) (body : Json)
    (fetch : OutboundRequest → Except String (Nat × Option String)) :
    ProxyResponse :=
  match routeAOutbound hs body with
  | .error e => .errorJson 502 (proxyErrorBody e)
  | .ok ob =>
      match fetch ob with
      | .error e => .errorJson 502 (proxyErrorBody e)
      | .ok (status, ct) => .piped status ct

/-- The Route B handler around its try/catch (lines 179-216). -/
def routeBHandle (method path qs : String) (hs : List (String × String))
    (body : Option Json)
    (fetch : OutboundRequest → Except String (Nat × Option String)) :
    ProxyResponse :=
  match fetch (routeBOutbound method path qs hs body) with
  | .error e => .errorJson 502 (proxyErrorBody e)
  | .ok (status, ct) => .piped status ct

/-- Outcome of the `express.json({ limit: "50mb" })` middleware (line 55)
on the raw inbound bytes, before any route handler runs. -/
inductive BodyParseOutcome where
  | parsed (j : Json)
  | malformed
  | tooLarge
deriving DecidableEq

/-- Route A pipeline including the body-parsing middleware.  The
`express.json` body parser (line 55) forwards a parse failure to the
framework's default error handler, which responds before the route handler
runs: HTTP 400 for malformed JSON (`entity.parse.failed`) and HTTP 413 for
a body over the 50mb cap (`entity.too.large`); the route's try/catch never
executes for these requests. -/
def routeAPipeline (po : BodyParseOutcome) (hs : List (String × String))
    (fetch : OutboundRequest → Except String (Nat × Option String)) :
    ProxyResponse :=
  match po with
  | .parsed j => routeAHandle hs j fetch
  | .malformed => .middlewareError 400
  | .tooLarge => .middlewareError 413

/-- Route B pipeline including the body-parsing middleware; a `none` body
models a request the middleware never parsed (e.g. no JSON content-type). -/
def routeBPipeline (po : Option BodyParseOutcome) (method path qs : String)
    (hs : List (String × String))
    (fetch : OutboundRequest → Except String (Nat × Option String)) :
    ProxyResponse :=
  match po with
  | none => routeBHandle method path qs hs none fetch
  | some (.parsed j) => routeBHandle method path qs hs (some j) fetch
  | some .malformed => .middlewareError 400
  | some .tooLarge => .middlewareError 413

def responseStatus : ProxyResponse → Nat
  | .piped s _ => s
  | .errorJson s _ => s
  | .middlewareError s => s

/-- Whether the response is the handlers' structured 502 error. -/
def isStructured502 : ProxyResponse → Bool
  | .errorJson s _ => s == 502
  | _ => false

/-- Whether the response pipes a (possibly successful) upstream response. -/
def isPiped : ProxyResponse → Bool
  | .piped _ _ => true
  | _ => false

/-- A fetch that always fails at the network level, for witnesses. -/
def failFetch : OutboundRequest → Except String (Nat × Option String) :=
  fun _ => .error "connect ECONNREFUSED"

/-- A fetch that always succeeds with a 200 JSON response, for witnesses. -/
def okFetch : OutboundRequest → Except String (Nat × Option String) :=
  fun _ => .ok (200, some "application/json")

-- ---------------------------------------------------------------------------
-- Routing dispatch (lines 117 and 179)
-- ---------------------------------------------------------------------------

inductive Route where
  | routeA
  | routeB
deriving DecidableEq

/-- Which handler Express selects: `app.post(ROUTE_A_PATH)` matches a POST
to exactly that path, everything else falls to `app.all("*")`. -/
def dispatch (method path : String) : Route :=
  if method == "POST" && path == ROUTE_A_PATH then .routeA else .routeB

-- ---------------------------------------------------------------------------
-- Helper lemmas about object field lists
-- ---------------------------------------------------------------------------

theorem jlookup_jsSet_self (fs : List (String × Json)) (k : String) (v : Json) :
    jlookup (jsSet fs k v) k = some v := by
  induction fs with
  | nil => simp [jsSet, jlookup]
  | cons kv rest ih =>
      obtain ⟨k0, w⟩ := kv
      by_cases h : k0 = k <;> simp [jsSet, jlookup, h, ih]

theorem jlookup_jsSet_ne (fs : List (String × Json)) (k k0 : String) (v : Json)
    (h : k0 ≠ k) : jlookup (jsSet fs k v) k0 = jlookup fs k0 := by
  have hne : ¬ k = k0 := fun hh => h hh.symm
  induction fs with
  | nil => simp [jsSet, jlookup, hne]
  | cons kv rest ih =>
      obtain ⟨k1, w⟩ := kv
      by_cases h1 : k1 = k
      · subst h1
        simp [jsSet, jlookup, hne]
      · simp [jsSet, jlookup, h1, ih]

theorem jsSet_jsSet (fs : List (String × Json)) (k : String) (v w : Json) :
    jsSet (jsSet fs k v) k w = jsSet fs k w := by
  induction fs with
  | nil => simp [jsSet]
  | cons kv rest ih =>
      obtain ⟨k0, u⟩ := kv
      by_cases h : k0 = k <;> simp [jsSet, h, ih]

theorem jsSet_eq_of_jlookup (fs : List (String × Json)) (k : String) (v : Json)
    (h : jlookup fs k = some v) : jsSet fs k v = fs := by
  induction fs with
  | nil => simp [jlookup] at h
  | cons kv rest ih =>
      obtain ⟨k0, w⟩ := kv
      by_cases h0 : k0 = k
      · subst h0
        simp [jlookup] at h
        simp [jsSet, h]
      · simp [jlookup, h0] at h
        simp [jsSet, h0, ih h]

theorem jlookup_append (l1 l2 : List (String × Json)) (k : String) :
    jlookup (l1 ++ l2) k =
      match jlookup l1 k with
      | some v => some v
      | none => jlookup l2 k := by
  induction l1 with
  | nil => simp [jlookup]
  | cons kv rest ih =>
      obtain ⟨k0, w⟩ := kv
      by_cases h : k0 = k <;> simp [jlookup, h, ih]

theorem jlookup_filter_of_key (fs : List (String × Json))
    (p : String × Json → Bool) (k : String) (hp : ∀ v, p (k, v) = true) :
    jlookup (fs.filter p) k = jlookup fs k := by
  induction fs with
  | nil => simp [jlookup]
  | cons kv rest ih =>
      obtain ⟨k0, w⟩ := kv
      by_cases h : k0 = k
      · subst h
        simp [List.filter, hp w, jlookup, ih]
      · cases hpk : p (k0, w) <;> simp [List.filter, hpk, jlookup, h, ih]

theorem jlookup_filter_none (fs : List (String × Json))
    (p : String × Json → Bool) (k : String) (hp : ∀ v, p (k, v) = false) :
    jlookup (fs.filter p) k = none := by
  induction fs with
  | nil => simp [jlookup]
  | cons kv rest ih =>
      obtain ⟨k0, w⟩ := kv
      by_cases h : k0 = k
      · subst h
        simp [List.filter, hp w, ih]
      · cases hpk : p (k0, w) <;> simp [List.filter, hpk, jlookup, h, ih]

/-- The list `restFields` never contains a `"messages"` or `"model"` entry. -/
theorem jlookup_restFields_messages (body : Json) :
    jlookup (restFields body) "messages" = none := by
  apply jlookup_filter_none
  intro v
  simp

theorem jlookup_restFields_model (body : Json) :
    jlookup (restFields body) "model" = none := by
  apply jlookup_filter_none
  intro v
  simp

/-- On non-null values, plain property access never throws and agrees with
the destructuring lookup. -/
theorem getProp_eq_destructGet (m : Json) (k : String) (hm : m ≠ Json.null) :
    getProp m k = .ok (destructGet m k) := by
  cases m <;> simp_all [getProp, destructGet]

-- ---------------------------------------------------------------------------
-- Characterizations of the transform
-- ---------------------------------------------------------------------------

theorem isAssistantRole_iff (r : Option Json) :
    isAssistantRole r = true ↔ r = some (Json.str "assistant") := by
  match r with
  | none => simp [isAssistantRole]
  | some v => cases v <;> simp [isAssistantRole]

/-- The signature seen on a freshly injected tool call is the bypass marker. -/
theorem thoughtSignatureOf_injected (tc : Json) :
    thoughtSignatureOf
      (.obj (jsSet (spreadFields tc) "extra_content" bypassExtraContent)) =
    some (.str BYPASS_SIGNATURE) := by
  simp [thoughtSignatureOf, getPropOpt, jlookup_jsSet_self, bypassExtraContent,
    jlookup]

/-- Patching a tool call twice is the same as patching it once. -/
theorem patchToolCall_fixed (tc : Json) :
    patchToolCall (patchToolCall tc) = patchToolCall tc := by
  by_cases h : jsTruthyOpt (thoughtSignatureOf tc) = true
  · simp [patchToolCall, h]
  · simp only [patchToolCall, h, if_neg, Bool.not_eq_true] at *
    simp [patchToolCall, h, thoughtSignatureOf_injected, jsTruthyOpt, jsTruthy,
      BYPASS_SIGNATURE]

/-- A message whose computed role is not the string "assistant" passes
through unchanged. -/
theorem processMessage_not_assistant (m : Json) (hm : m ≠ Json.null)
    (h : destructGet m "role" ≠ some (Json.str "assistant")) :
    processMessage m = .ok m := by
  have hr : isAssistantRole (destructGet m "role") = false := by
    cases hra : isAssistantRole (destructGet m "role")
    · rfl
    · exact absurd ((isAssistantRole_iff _).mp hra) h
  simp [processMessage, getProp_eq_destructGet m "role" hm, hr]

/-- An assistant message whose `tool_calls` is not an array passes through
unchanged. -/
theorem processMessage_no_toolcalls (m : Json) (hm : m ≠ Json.null)
    (h : ∀ tcs, destructGet m "tool_calls" ≠ some (Json.arr tcs)) :
    processMessage m = .ok m := by
  by_cases hr : isAssistantRole (destructGet m "role") = true
  · rcases htc : destructGet m "tool_calls" with _ | v
    · simp [processMessage, getProp_eq_destructGet m _ hm, hr, htc]
    · cases v <;>
        simp_all [processMessage, getProp_eq_destructGet m _ hm, hr, htc]
  · simp [processMessage, getProp_eq_destructGet m "role" hm, hr]

/-- An assistant message with an array of tool calls is rebuilt with each
tool call patched and nothing else touched. -/
theorem processMessage_assistant (fs : List (String × Json)) (tcs : List Json)
    (hrole : jlookup fs "role" = some (Json.str "assistant"))
    (htc : jlookup fs "tool_calls" = some (Json.arr tcs)) :
    processMessage (Json.obj fs) =
      .ok (.obj (jsSet fs "tool_calls" (.arr (tcs.map patchToolCall)))) := by
  simp [processMessage, getProp, hrole, htc, isAssistantRole, spreadFields]

/-- The value `processMessage` produces when it does not throw; on a null
input (where it throws) this is the input itself. -/
def processMessageTotal (m : Json) : Json :=
  match processMessage m with
  | .ok y => y
  | .error _ => m

/-- The function `processMessage` throws only on a null message. -/
theorem processMessage_ne_null (m : Json) (hm : m ≠ Json.null) :
    processMessage m = .ok (processMessageTotal m) := by
  obtain ⟨y, hy⟩ : ∃ y, processMessage m = .ok y := by
    cases m with
    | null => exact absurd rfl hm
    | obj fs =>
        by_cases hr : isAssistantRole (jlookup fs "role") = true
        · rcases htc : jlookup fs "tool_calls" with _ | v
          · exact ⟨Json.obj fs, processMessage_no_toolcalls (.obj fs)
              (fun hh => Json.noConfusion hh) (by simp [destructGet, htc])⟩
          · match v with
            | .arr tcs =>
                exact ⟨_, processMessage_assistant fs tcs
                  ((isAssistantRole_iff _).mp hr) htc⟩
            | .null | .bool _ | .num _ | .str _ | .obj _ =>
                exact ⟨Json.obj fs, processMessage_no_toolcalls (.obj fs)
                  (fun hh => Json.noConfusion hh) (by simp [destructGet, htc])⟩
        · exact ⟨Json.obj fs, by simp [processMessage, getProp, hr]⟩
    | bool b => exact ⟨Json.bool b, rfl⟩
    | num n => exact ⟨Json.num n, rfl⟩
    | str s => exact ⟨Json.str s, rfl⟩
    | arr xs => exact ⟨Json.arr xs, rfl⟩
  simp [processMessageTotal, hy]

/-- Applying `processMessage` to an output of `processMessage` changes
nothing. -/
theorem processMessage_fixed (m y : Json) (h : processMessage m = .ok y) :
    processMessage y = .ok y := by
  cases m with
  | null => simp [processMessage, getProp] at h
  | obj fs =>
      by_cases hr : isAssistantRole (jlookup fs "role") = true
      · rcases htc : jlookup fs "tool_calls" with _ | v
        · simp [processMessage, getProp, hr, htc] at h
          subst h
          simp [processMessage, getProp, hr, htc]
        · match v with
          | .arr tcs =>
              rw [processMessage_assistant fs tcs
                ((isAssistantRole_iff _).mp hr) htc] at h
              obtain rfl : Json.obj (jsSet fs "tool_calls"
                  (.arr (tcs.map patchToolCall))) = y := by
                exact congrArg (fun e => match e with
                  | Except.ok z => z
                  | Except.error _ => Json.null) h
              rw [processMessage_assistant _ (tcs.map patchToolCall)
                  (by rw [jlookup_jsSet_ne _ _ _ _ (by decide)]
                      exact (isAssistantRole_iff _).mp hr)
                  (jlookup_jsSet_self fs "tool_calls" _)]
              rw [List.map_map]
              have : patchToolCall ∘ patchToolCall = patchToolCall := by
                funext tc
                exact patchToolCall_fixed tc
              rw [this, jsSet_jsSet]
          | .null | .bool _ | .num _ | .str _ | .obj _ =>
              simp [processMessage, getProp, hr, htc] at h
              subst h
              simp [processMessage, getProp, hr, htc]
      · simp [processMessage, getProp, hr] at h
        subst h
        simp [processMessage, getProp, hr]
  | bool b =>
      simp [processMessage, getProp, isAssistantRole] at h
      subst h
      simp [processMessage, getProp, isAssistantRole]
  | num n =>
      simp [processMessage, getProp, isAssistantRole] at h
      subst h
      simp [processMessage, getProp, isAssistantRole]
  | str s =>
      simp [processMessage, getProp, isAssistantRole] at h
      subst h
      simp [processMessage, getProp, isAssistantRole]
  | arr xs =>
      simp [processMessage, getProp, isAssistantRole] at h
      subst h
      simp [processMessage, getProp, isAssistantRole]

/-- Re-mapping an already-mapped message list changes nothing. -/
theorem mapExcept_fixed (xs ys : List Json)
    (h : mapExcept processMessage xs = .ok ys) :
    mapExcept processMessage ys = .ok ys := by
  induction xs generalizing ys with
  | nil =>
      simp [mapExcept] at h
      subst h
      simp [mapExcept]
  | cons x xs ih =>
      rcases hx : processMessage x with e | y
      · simp [mapExcept, hx] at h
      · rcases hxs : mapExcept processMessage xs with e | ys0
        · simp [mapExcept, hx, hxs] at h
        · simp [mapExcept, hx, hxs] at h
          subst h
          simp [mapExcept, processMessage_fixed x y hx, ih ys0 hxs]

/-- The transform's outputs are fixed points of the transform. -/
theorem injectThoughtSignatures_fixed (j r : Json)
    (h : injectThoughtSignatures j = .ok r) :
    injectThoughtSignatures r = .ok r := by
  cases j with
  | arr xs =>
      rcases hmap : mapExcept processMessage xs with e | ys
      · simp [injectThoughtSignatures, hmap] at h
      · simp [injectThoughtSignatures, hmap] at h
        subst h
        simp [injectThoughtSignatures, mapExcept_fixed xs ys hmap]
  | null =>
      simp [injectThoughtSignatures] at h
      subst h
      rfl
  | bool b =>
      simp [injectThoughtSignatures] at h
      subst h
      rfl
  | num n =>
      simp [injectThoughtSignatures] at h
      subst h
      rfl
  | str s =>
      simp [injectThoughtSignatures] at h
      subst h
      rfl
  | obj fs =>
      simp [injectThoughtSignatures] at h
      subst h
      rfl

/-- Frame property of one `processMessage` step: any field other than
`tool_calls` is unchanged in the output message. -/
theorem processMessage_frame (m y : Json) (h : processMessage m = .ok y)
    (k : String) (hk : k ≠ "tool_calls") : destructGet y k = destructGet m k := by
  cases m with
  | null => simp [processMessage, getProp] at h
  | obj fs =>
      by_cases hr : isAssistantRole (jlookup fs "role") = true
      · rcases htc : jlookup fs "tool_calls" with _ | v
        · rw [processMessage_no_toolcalls (.obj fs)
              (fun hh => Json.noConfusion hh) (by simp [destructGet, htc])] at h
          injection h with h
          subst h
          rfl
        · match v with
          | .arr tcs =>
              rw [processMessage_assistant fs tcs
                ((isAssistantRole_iff _).mp hr) htc] at h
              injection h with h
              subst h
              simp [destructGet, jlookup_jsSet_ne fs "tool_calls" k _ hk]
          | .null | .bool _ | .num _ | .str _ | .obj _ =>
              rw [processMessage_no_toolcalls (.obj fs)
                  (fun hh => Json.noConfusion hh)
                  (by simp [destructGet, htc])] at h
              injection h with h
              subst h
              rfl
      · rw [processMessage_not_assistant (.obj fs)
            (fun hh => Json.noConfusion hh)
            (fun hc => hr ((isAssistantRole_iff _).mpr (by simpa [destructGet] using hc)))] at h
        injection h with h
        subst h
        rfl
  | bool b =>
      injection h with h
      subst h
      rfl
  | num n =>
      injection h with h
      subst h
      rfl
  | str s =>
      injection h with h
      subst h
      rfl
  | arr xs =>
      injection h with h
      subst h
      rfl

-- ---------------------------------------------------------------------------
-- Lookups in the reassembled outbound body
-- ---------------------------------------------------------------------------

theorem jlookup_assembled_messages (pm mo : Option Json) (body : Json) :
    jlookup (optField "messages" pm ++ (optField "model" mo ++ restFields body))
      "messages" = pm := by
  have h1 : ("model" : String) ≠ "messages" := by decide
  rcases pm with _ | v <;> rcases mo with _ | w <;>
    simp [optField, jlookup_append, jlookup, h1,
      jlookup_restFields_messages body]

theorem jlookup_assembled_other (pm : Option Json) (fs : List (String × Json))
    (k : String) (hk : k ≠ "messages") :
    jlookup (optField "messages" pm ++
      (optField "model" (jlookup fs "model") ++ restFields (Json.obj fs))) k =
    jlookup fs k := by
  have hk2 : ("messages" : String) ≠ k := fun hh => hk hh.symm
  by_cases hkm : k = "model"
  · subst hkm
    rcases pm with _ | v <;> rcases hmo : jlookup fs "model" with _ | w <;>
      simp [optField, jlookup_append, jlookup, hk2, hmo,
        jlookup_restFields_model (Json.obj fs)]
  · have hkm2 : ("model" : String) ≠ k := fun hh => hkm hh.symm
    have hrest : jlookup (restFields (Json.obj fs)) k = jlookup fs k := by
      have : restFields (Json.obj fs) =
          fs.filter (fun kv => kv.1 != "messages" && kv.1 != "model") := rfl
      rw [this]
      apply jlookup_filter_of_key
      intro v
      simp [hk, hkm]
    rcases pm with _ | v <;> rcases hmo : jlookup fs "model" with _ | w <;>
      simp [optField, jlookup_append, jlookup, hk2, hkm2, hrest, hmo]

-- ---------------------------------------------------------------------------
-- Claims
-- ---------------------------------------------------------------------------

/-- Claim C1: in every assistant message processed by the transform each
tool call already carrying a non-empty `extra_content.google.thought_signature`
is returned unchanged, and each tool call without one (the path absent or
the empty string) is returned with exactly the fixed bypass marker at that
path and every other field of the tool call unchanged. -/
theorem c1_injection_correctness :
    (∀ fs s, thoughtSignatureOf (Json.obj fs) = some (Json.str s) → s ≠ "" →
        patchToolCall (Json.obj fs) = Json.obj fs) ∧
    (∀ fs, thoughtSignatureOf (Json.obj fs) = none ∨
           thoughtSignatureOf (Json.obj fs) = some (Json.str "") →
        thoughtSignatureOf (patchToolCall (Json.obj fs)) =
            some (Json.str BYPASS_SIGNATURE) ∧
        ∀ k, k ≠ "extra_content" →
          destructGet (patchToolCall (Json.obj fs)) k = jlookup fs k) ∧
    (∀ fs tcs, jlookup fs "role" = some (Json.str "assistant") →
        jlookup fs "tool_calls" = some (Json.arr tcs) →
        processMessage (Json.obj fs) =
          .ok (.obj (jsSet fs "tool_calls" (.arr (tcs.map patchToolCall))))) := by
  refine ⟨?_, ?_, fun fs tcs h1 h2 => processMessage_assistant fs tcs h1 h2⟩
  · intro fs s h hs
    have ht : jsTruthyOpt (thoughtSignatureOf (Json.obj fs)) = true := by
      simp [h, jsTruthyOpt, jsTruthy, bne_iff_ne, hs]
    simp [patchToolCall, ht]
  · intro fs h
    have hf : jsTruthyOpt (thoughtSignatureOf (Json.obj fs)) = false := by
      rcases h with h | h <;> simp [h, jsTruthyOpt, jsTruthy]
    constructor
    · simp only [patchToolCall, hf, Bool.false_eq_true, if_false]
      exact thoughtSignatureOf_injected (Json.obj fs)
    · intro k hk
      simp only [patchToolCall, hf, Bool.false_eq_true, if_false]
      simpa [destructGet, spreadFields] using
        jlookup_jsSet_ne fs "extra_content" k bypassExtraContent hk

/-- Witness for C1 at concrete tool calls and a concrete assistant message. -/
theorem c1_witness :
    patchToolCall (Json.obj [("id", Json.str "1"),
        ("extra_content", Json.obj [("google",
          Json.obj [("thought_signature", Json.str "abc")])])]) =
      Json.obj [("id", Json.str "1"),
        ("extra_content", Json.obj [("google",
          Json.obj [("thought_signature", Json.str "abc")])])] ∧
    thoughtSignatureOf (patchToolCall (Json.obj [("id", Json.str "1")])) =
      some (Json.str BYPASS_SIGNATURE) ∧
    destructGet (patchToolCall (Json.obj [("id", Json.str "1")])) "id" =
      jlookup [("id", Json.str "1")] "id" ∧
    processMessage (Json.obj [("role", Json.str "assistant"),
        ("tool_calls", Json.arr [Json.obj [("id", Json.str "1")]])]) =
      .ok (.obj (jsSet [("role", Json.str "assistant"),
        ("tool_calls", Json.arr [Json.obj [("id", Json.str "1")]])] "tool_calls"
          (.arr ([Json.obj [("id", Json.str "1")]].map patchToolCall)))) :=
  ⟨c1_injection_correctness.1 _ "abc" (by decide) (by decide),
   (c1_injection_correctness.2.1 _ (Or.inl (by decide))).1,
   (c1_injection_correctness.2.1 _ (Or.inl (by decide))).2 "id" (by decide),
   c1_injection_correctness.2.2 _ _ (by decide) (by decide)⟩

/-- Claim C3: applying the transform twice yields the same result as
applying it once (on a throwing input both sides throw identically). -/
theorem c3_transform_idempotent (M : Json) :
    (injectThoughtSignatures M).bind injectThoughtSignatures =
      injectThoughtSignatures M := by
  rcases h : injectThoughtSignatures M with e | r
  · simp [Except.bind]
  · simp [Except.bind]
    exact injectThoughtSignatures_fixed M r h

/-- Counterexample to Claim C5 as stated: on the sequence `[null]` the
transform does not return normally; accessing `.role` on the null element
throws a TypeError. -/
theorem c5_counterexample :
    injectThoughtSignatures (Json.arr [Json.null]) =
      .error "Cannot read properties of null (reading role)" := by decide

/-- Claim C5 as amended: an absent (`undefined`) input and every
non-sequence input are returned unchanged without error; a sequence whose
elements are all non-null yields, without error, the elementwise-processed
sequence of the same length and order; only a sequence containing a null
element makes the transform throw (the route handler catches the throw). -/
theorem c5_amended_defensive (j : Json) (xs : List Json) :
    injectThoughtSignaturesOpt none = .ok none ∧
    ((∀ ys, j ≠ Json.arr ys) → injectThoughtSignatures j = .ok j) ∧
    ((∀ m ∈ xs, m ≠ Json.null) →
      injectThoughtSignatures (Json.arr xs) =
        .ok (Json.arr (xs.map processMessageTotal)) ∧
      (xs.map processMessageTotal).length = xs.length) := by
  refine ⟨rfl, ?_, ?_⟩
  · intro h
    cases j with
    | arr ys => exact absurd rfl (h ys)
    | null => rfl
    | bool b => rfl
    | num n => rfl
    | str s => rfl
    | obj fs => rfl
  · induction xs with
    | nil => intro h; exact ⟨rfl, rfl⟩
    | cons x xs ih =>
        intro h
        have hx : processMessage x = .ok (processMessageTotal x) :=
          processMessage_ne_null x (h x (List.mem_cons_self x xs))
        obtain ⟨ihh, _⟩ := ih (fun m hm => h m (List.mem_cons_of_mem x hm))
        rcases hmap : mapExcept processMessage xs with e | ys
        · simp [injectThoughtSignatures, hmap] at ihh
        · simp [injectThoughtSignatures, hmap] at ihh
          constructor
          · simp [injectThoughtSignatures, mapExcept, hx, hmap, ihh]
          · simp

/-- Witness for C5's amended statement at concrete inputs. -/
theorem c5_amended_witness :
    injectThoughtSignatures (Json.str "hello") = .ok (Json.str "hello") ∧
    (injectThoughtSignatures (Json.arr [Json.obj [("role", Json.str "user")]]) =
        .ok (Json.arr ([Json.obj [("role", Json.str "user")]].map
          processMessageTotal)) ∧
      ([Json.obj [("role", Json.str "user")]].map processMessageTotal).length =
        [Json.obj [("role", Json.str "user")]].length) :=
  ⟨(c5_amended_defensive (Json.str "hello") []).2.1
      (fun ys h => Json.noConfusion h),
   (c5_amended_defensive Json.null [Json.obj [("role", Json.str "user")]]).2.2
      (by decide)⟩

/-- Claim C6: a non-null message whose role is not "assistant", or whose
`tool_calls` is not an array, passes through the transform unchanged; and
a message the transform does rebuild keeps every field other than
`tool_calls` at its original value. -/
theorem c6_selective_mutation (m y : Json) (hm : m ≠ Json.null) :
    (destructGet m "role" ≠ some (Json.str "assistant") →
        processMessage m = .ok m) ∧
    ((∀ tcs, destructGet m "tool_calls" ≠ some (Json.arr tcs)) →
        processMessage m = .ok m) ∧
    (processMessage m = .ok y →
        ∀ k, k ≠ "tool_calls" → destructGet y k = destructGet m k) :=
  ⟨processMessage_not_assistant m hm,
   processMessage_no_toolcalls m hm,
   fun h k hk => processMessage_frame m y h k hk⟩

/-- Witness for C6: a user message passes through unchanged; a rebuilt
assistant message keeps its other fields. -/
theorem c6_witness :
    processMessage (Json.obj [("role", Json.str "user"),
        ("content", Json.str "hi")]) =
      .ok (Json.obj [("role", Json.str "user"), ("content", Json.str "hi")]) ∧
    processMessage (Json.obj [("role", Json.str "assistant"),
        ("content", Json.str "x")]) =
      .ok (Json.obj [("role", Json.str "assistant"),
        ("content", Json.str "x")]) ∧
    destructGet (Json.obj (jsSet [("role", Json.str "assistant"),
        ("tool_calls", Json.arr [])] "tool_calls" (Json.arr []))) "role" =
      destructGet (Json.obj [("role", Json.str "assistant"),
        ("tool_calls", Json.arr [])]) "role" :=
  ⟨(c6_selective_mutation (Json.obj [("role", Json.str "user"),
      ("content", Json.str "hi")]) Json.null
      (fun h => Json.noConfusion h)).1 (by decide),
   (c6_selective_mutation (Json.obj [("role", Json.str "assistant"),
      ("content", Json.str "x")]) Json.null
      (fun h => Json.noConfusion h)).2.1 (fun tcs h => Option.noConfusion h),
   (c6_selective_mutation (Json.obj [("role", Json.str "assistant"),
      ("tool_calls", Json.arr [])]) (Json.obj (jsSet [("role", Json.str "assistant"),
      ("tool_calls", Json.arr [])] "tool_calls" (Json.arr [])))
      (fun h => Json.noConfusion h)).2.2 (by decide) "role" (by decide)⟩

/-- Claim C2: on Route A, only a body whose `model` equals the designated
identifier has its `messages` replaced by the transform's output in the
outbound body; for every other model value the outbound `messages` equal
the inbound `messages` and the transform is not applied. -/
theorem c2_model_gating (body out : Json) :
    (∀ pm, requiresPatch (destructGet body "model") = true →
        injectThoughtSignaturesOpt (destructGet body "messages") = .ok pm →
        routeAOutboundBody body = .ok out →
        destructGet out "messages" = pm) ∧
    (requiresPatch (destructGet body "model") = false →
        routeAOutboundBody body = .ok out →
        destructGet out "messages" = destructGet body "messages") := by
  constructor
  · intro pm hrp hinj h
    simp only [routeAOutboundBody, hrp, if_true, hinj] at h
    simp only [Except.ok.injEq] at h
    subst h
    simp [destructGet, List.append_assoc, jlookup_assembled_messages]
  · intro hrp h
    simp only [routeAOutboundBody, hrp, Bool.false_eq_true, if_false] at h
    simp only [Except.ok.injEq] at h
    subst h
    simp [destructGet, List.append_assoc, jlookup_assembled_messages]

/-- Witness for C2: the designated model gets the transform's output, a
different model is forwarded with identical messages. -/
theorem c2_witness :
    destructGet (Json.obj [("messages", Json.arr [Json.obj [("role", Json.str "user")]]),
        ("model", Json.str PATCHED_MODEL_ID), ("top_p", Json.num 1)]) "messages" =
      some (Json.arr [Json.obj [("role", Json.str "user")]]) ∧
    destructGet (Json.obj [("messages", Json.arr [Json.obj [("role", Json.str "user")]]),
        ("model", Json.str "gpt-4o")]) "messages" =
      destructGet (Json.obj [("model", Json.str "gpt-4o"),
        ("messages", Json.arr [Json.obj [("role", Json.str "user")]])]) "messages" :=
  ⟨(c2_model_gating
      (Json.obj [("model", Json.str PATCHED_MODEL_ID),
        ("messages", Json.arr [Json.obj [("role", Json.str "user")]]),
        ("top_p", Json.num 1)])
      (Json.obj [("messages", Json.arr [Json.obj [("role", Json.str "user")]]),
        ("model", Json.str PATCHED_MODEL_ID), ("top_p", Json.num 1)])).1
      (some (Json.arr [Json.obj [("role", Json.str "user")]]))
      (by decide) (by decide) (by decide),
   (c2_model_gating
      (Json.obj [("model", Json.str "gpt-4o"),
        ("messages", Json.arr [Json.obj [("role", Json.str "user")]])])
      (Json.obj [("messages", Json.arr [Json.obj [("role", Json.str "user")]]),
        ("model", Json.str "gpt-4o")])).2 (by decide) (by decide)⟩

/-- Claim C4: whenever the Route A handler issues an outbound request, it
is a POST to exactly the corrected provider URL, which differs from the
client-constructed path appended to the provider origin; and a POST to the
client-constructed path is dispatched to Route A. -/
theorem c4_path_correction (hs : List (String × String)) (body : Json)
    (ob : OutboundRequest) (h : routeAOutbound hs body = .ok ob) :
    ob.method = "POST" ∧
    ob.url = "https://generativelanguage.googleapis.com/v1beta/openai/chat/completions" ∧
    ob.url ≠ GOOGLE_BASE_URL ++ ROUTE_A_PATH ∧
    dispatch "POST" ROUTE_A_PATH = Route.routeA := by
  rcases hob : routeAOutboundBody body with e | b
  · simp [routeAOutbound, hob] at h
  · simp only [routeAOutbound, hob, Except.ok.injEq] at h
    subst h
    refine ⟨rfl, ?_, ?_, by decide⟩
    · show routeAUpstreamUrl = _
      decide
    · show routeAUpstreamUrl ≠ _
      decide

/-- Witness for C4 at a concrete empty body. -/
theorem c4_witness :
    ({ method := "POST", url := routeAUpstreamUrl,
       headers := [("content-type", "application/json")],
       body := some (Json.obj []) } : OutboundRequest).method = "POST" ∧
    ({ method := "POST", url := routeAUpstreamUrl,
       headers := [("content-type", "application/json")],
       body := some (Json.obj []) } : OutboundRequest).url =
      "https://generativelanguage.googleapis.com/v1beta/openai/chat/completions" ∧
    ({ method := "POST", url := routeAUpstreamUrl,
       headers := [("content-type", "application/json")],
       body := some (Json.obj []) } : OutboundRequest).url ≠
      GOOGLE_BASE_URL ++ ROUTE_A_PATH ∧
    dispatch "POST" ROUTE_A_PATH = Route.routeA :=
  c4_path_correction [] (Json.obj [])
    { method := "POST", url := routeAUpstreamUrl,
      headers := [("content-type", "application/json")],
      body := some (Json.obj []) } (by decide)

/-- Claim C7: every top-level field of the outbound Route A body other
than `messages` (the `model` included) carries its original inbound value. -/
theorem c7_outbound_frame (fs : List (String × Json)) (out : Json)
    (h : routeAOutboundBody (Json.obj fs) = .ok out) :
    ∀ k, k ≠ "messages" → destructGet out k = jlookup fs k := by
  intro k hk
  by_cases hrp : requiresPatch (destructGet (Json.obj fs) "model") = true
  · rcases hinj : injectThoughtSignaturesOpt
        (destructGet (Json.obj fs) "messages") with e | pm
    · simp [routeAOutboundBody, hrp, hinj] at h
    · simp only [routeAOutboundBody, hrp, if_true, hinj, Except.ok.injEq] at h
      subst h
      simpa [destructGet, List.append_assoc] using
        jlookup_assembled_other pm fs k hk
  · rw [Bool.not_eq_true] at hrp
    simp only [routeAOutboundBody, hrp, Bool.false_eq_true, if_false,
      Except.ok.injEq] at h
    subst h
    simpa [destructGet, List.append_assoc] using
      jlookup_assembled_other (jlookup fs "messages") fs k hk

/-- Witness for C7: the `n` parameter of a concrete body survives
re-serialization unaltered. -/
theorem c7_witness :
    destructGet (Json.obj [("messages", Json.arr []),
        ("model", Json.str "gpt-4o"), ("n", Json.num 2)]) "n" =
      jlookup [("model", Json.str "gpt-4o"), ("messages", Json.arr []),
        ("n", Json.num 2)] "n" :=
  c7_outbound_frame
    [("model", Json.str "gpt-4o"), ("messages", Json.arr []), ("n", Json.num 2)]
    (Json.obj [("messages", Json.arr []), ("model", Json.str "gpt-4o"),
      ("n", Json.num 2)]) (by decide) "n" (by decide)

/-- Counterexample to Claim C8 as stated: an `authorization` header that is
present inbound but empty is not forwarded, so "forwarded byte-for-byte if
and only if present inbound" fails (the code tests truthiness, and the
empty string is falsy). -/
theorem c8_counterexample :
    headerLookup [("authorization", "")] "authorization" = some "" ∧
    headerLookup (routeAForwardHeaders [("authorization", "")])
      "authorization" = none := by decide

/-- Claim C8 as amended: the Route A outbound headers are exactly
`content-type` (the inbound value when present and non-empty, otherwise
"application/json") and `authorization` (forwarded byte-for-byte if and
only if present inbound with a non-empty value); no other inbound header
is ever forwarded, and the outbound headers depend on nothing but the
inbound `content-type` and `authorization` values. -/
theorem c8_amended_header_allowlist (hs hs2 : List (String × String)) :
    (∀ k v, (k, v) ∈ routeAForwardHeaders hs →
        k = "content-type" ∨ k = "authorization") ∧
    (headerLookup hs "content-type" = none ∨
        headerLookup hs "content-type" = some "" →
      headerLookup (routeAForwardHeaders hs) "content-type" =
        some "application/json") ∧
    (∀ v, headerLookup hs "content-type" = some v → v ≠ "" →
        headerLookup (routeAForwardHeaders hs) "content-type" = some v) ∧
    (∀ v, headerLookup hs "authorization" = some v → v ≠ "" →
        headerLookup (routeAForwardHeaders hs) "authorization" = some v) ∧
    (headerLookup hs "authorization" = none ∨
        headerLookup hs "authorization" = some "" →
      headerLookup (routeAForwardHeaders hs) "authorization" = none) ∧
    (headerLookup hs "content-type" = headerLookup hs2 "content-type" →
     headerLookup hs "authorization" = headerLookup hs2 "authorization" →
        routeAForwardHeaders hs = routeAForwardHeaders hs2) := by
  have hne : ("content-type" : String) ≠ "authorization" := by decide
  refine ⟨?_, ?_, ?_, ?_, ?_, ?_⟩
  · intro k v hkv
    simp only [routeAForwardHeaders] at hkv
    rcases hau : headerLookup hs "authorization" with _ | av <;>
      simp only [hau] at hkv
    · simp at hkv
      exact Or.inl hkv.1
    · by_cases hv : av = ""
      · simp [hv] at hkv
        exact Or.inl hkv.1
      · simp [hv] at hkv
        rcases hkv with h1 | h1
        · exact Or.inl h1.1
        · exact Or.inr h1.1
  · intro h
    rcases hau : headerLookup hs "authorization" with _ | av <;>
      rcases h with h | h <;>
      simp [routeAForwardHeaders, h, hau, headerLookup] <;>
      by_cases hv : av = "" <;> simp [hv, headerLookup]
  · intro v hct hv
    rcases hau : headerLookup hs "authorization" with _ | av
    · simp [routeAForwardHeaders, hct, hau, hv, headerLookup]
    · by_cases hav : av = "" <;>
        simp [routeAForwardHeaders, hct, hau, hv, hav, headerLookup]
  · intro v hau hv
    rcases hct : headerLookup hs "content-type" with _ | cv <;>
      simp [routeAForwardHeaders, hct, hau, hv, headerLookup, hne]
  · intro h
    rcases hct : headerLookup hs "content-type" with _ | cv <;>
      rcases h with h | h <;>
      simp [routeAForwardHeaders, hct, h, headerLookup, hne]
  · intro h1 h2
    simp only [routeAForwardHeaders, h1, h2]

/-- Witness for C8's amended statement: a concrete request carrying
`x-custom` has it dropped while `authorization` is forwarded, and an
inbound header list differing only in `x-custom` yields identical outbound
headers. -/
theorem c8_amended_witness :
    headerLookup (routeAForwardHeaders [("authorization", "Bearer T"),
        ("x-custom", "secret"), ("content-type", "application/json")])
      "authorization" = some "Bearer T" ∧
    routeAForwardHeaders [("authorization", "Bearer T"),
        ("x-custom", "secret"), ("content-type", "application/json")] =
      routeAForwardHeaders [("content-type", "application/json"),
        ("authorization", "Bearer T")] :=
  ⟨(c8_amended_header_allowlist [("authorization", "Bearer T"),
      ("x-custom", "secret"), ("content-type", "application/json")] []).2.2.2.1
      "Bearer T" (by decide) (by decide),
   (c8_amended_header_allowlist [("authorization", "Bearer T"),
      ("x-custom", "secret"), ("content-type", "application/json")]
      [("content-type", "application/json"),
        ("authorization", "Bearer T")]).2.2.2.2.2 (by decide) (by decide)⟩

/-- Claim C9: on either route, a failure while constructing or issuing the
outbound call is caught and answered with HTTP 502 and the fixed-shape
JSON body carrying the machine-readable kind "proxy_error" and the
failure's detail string. -/
theorem c9_upstream_failure (hs : List (String × String)) (body : Json)
    (method path qs : String) (b2 : Option Json)
    (fetch : OutboundRequest → Except String (Nat × Option String))
    (e : String) :
    ((routeAOutbound hs body).bind fetch = .error e →
        routeAHandle hs body fetch = .errorJson 502 (proxyErrorBody e)) ∧
    (fetch (routeBOutbound method path qs hs b2) = .error e →
        routeBHandle method path qs hs b2 fetch =
          .errorJson 502 (proxyErrorBody e)) ∧
    destructGet (proxyErrorBody e) "error" = some (Json.str "proxy_error") ∧
    destructGet (proxyErrorBody e) "details" = some (Json.str e) := by
  have hne : ("error" : String) ≠ "details" := by decide
  refine ⟨?_, ?_, ?_, ?_⟩
  · intro h
    rcases hob : routeAOutbound hs body with e0 | ob
    · simp only [hob, Except.bind] at h
      simp only [Except.error.injEq] at h
      subst h
      simp [routeAHandle, hob]
    · simp only [hob, Except.bind] at h
      simp [routeAHandle, hob, h]
  · intro h
    simp [routeBHandle, h]
  · simp [proxyErrorBody, destructGet, jlookup]
  · simp [proxyErrorBody, destructGet, jlookup, hne]

/-- Witness for C9: a network failure on each route yields the 502
structured error. -/
theorem c9_witness :
    routeAHandle [] (Json.obj []) failFetch =
      .errorJson 502 (proxyErrorBody "connect ECONNREFUSED") ∧
    routeBHandle "GET" "/v1beta/openai/models" "" [] none failFetch =
      .errorJson 502 (proxyErrorBody "connect ECONNREFUSED") :=
  ⟨(c9_upstream_failure [] (Json.obj []) "GET" "/v1beta/openai/models" "" none
      failFetch "connect ECONNREFUSED").1 (by decide),
   (c9_upstream_failure [] (Json.obj []) "GET" "/v1beta/openai/models" "" none
      failFetch "connect ECONNREFUSED").2.1 (by decide)⟩

/-- Counterexample to Claim C10 as stated: a malformed inbound body is
answered by the body-parsing middleware with HTTP 400, not a 502-class
structured error (the route's 502 catch handler never runs). -/
theorem c10_counterexample :
    routeAPipeline BodyParseOutcome.malformed [] failFetch =
      .middlewareError 400 ∧
    responseStatus (routeAPipeline BodyParseOutcome.malformed [] failFetch) =
      400 ∧
    isStructured502 (routeAPipeline BodyParseOutcome.malformed [] failFetch) =
      false ∧
    (400 : Nat) ≠ 502 := by decide

/-- Claim C10 as amended: on either route a body that fails JSON parsing
(or exceeds the size cap) is answered by the body-parser's error path with
HTTP 400 (parse failure) or HTTP 413 (too large); the process does not
crash, no successful response is fabricated, and the handlers' structured
502 error is not produced. -/
theorem c10_amended_parse_rejection (po : BodyParseOutcome)
    (method path qs : String) (hs : List (String × String))
    (fetch : OutboundRequest → Except String (Nat × Option String))
    (h : po = .malformed ∨ po = .tooLarge) :
    (routeAPipeline po hs fetch = .middlewareError 400 ∨
     routeAPipeline po hs fetch = .middlewareError 413) ∧
    isStructured502 (routeAPipeline po hs fetch) = false ∧
    isPiped (routeAPipeline po hs fetch) = false ∧
    (routeBPipeline (some po) method path qs hs fetch = .middlewareError 400 ∨
     routeBPipeline (some po) method path qs hs fetch = .middlewareError 413) ∧
    isStructured502 (routeBPipeline (some po) method path qs hs fetch) = false ∧
    isPiped (routeBPipeline (some po) method path qs hs fetch) = false := by
  rcases h with h | h <;> subst h <;>
    simp [routeAPipeline, routeBPipeline, isStructured502, isPiped]

/-- Witness for C10's amended statement on a malformed body. -/
theorem c10_amended_witness :
    (routeAPipeline BodyParseOutcome.malformed [] okFetch =
        .middlewareError 400 ∨
     routeAPipeline BodyParseOutcome.malformed [] okFetch =
        .middlewareError 413) ∧
    isStructured502 (routeAPipeline BodyParseOutcome.malformed [] okFetch) =
      false ∧
    isPiped (routeAPipeline BodyParseOutcome.malformed [] okFetch) = false ∧
    (routeBPipeline (some BodyParseOutcome.malformed) "POST"
        "/v1beta/openai/models" "" [] okFetch = .middlewareError 400 ∨
     routeBPipeline (some BodyParseOutcome.malformed) "POST"
        "/v1beta/openai/models" "" [] okFetch = .middlewareError 413) ∧
    isStructured502 (routeBPipeline (some BodyParseOutcome.malformed) "POST"
        "/v1beta/openai/models" "" [] okFetch) = false ∧
    isPiped (routeBPipeline (some BodyParseOutcome.malformed) "POST"
        "/v1beta/openai/models" "" [] okFetch) = false :=
  c10_amended_parse_rejection BodyParseOutcome.malformed "POST"
    "/v1beta/openai/models" "" [] okFetch (Or.inl rfl)

